import Mathlib

/-
Verification of the strategy and position-risk engine of the
bn_bot_with_netflow_signal repository.  Numeric values are modelled as
exact rationals; the IEEE infinities that the Python source uses as
sentinels (float('inf') / float('-inf') extreme-price initialisers, the
float('inf') profit factor) are modelled with Option, `none` standing for
the infinite value, and NaN results are likewise modelled as `none`.
-/

namespace BnBot

/-- Direction of a position or signal. -/
inductive Side
  | long
  | short
deriving DecidableEq

/-- Reason recorded on a Trade when a position closes
(backtest.py execute_trade: 'tp', 'sl', 'trailing_stop'). -/
inductive ExitReason
  | takeProfit
  | stopLoss
  | trailingStop
deriving DecidableEq

/-! ### Position sizing

`Backtester.calculate_position_size` (backtest.py lines 186-202) and
`BinanceFuturesTrader.calculate_position_size` (trader.py lines 169-219).
The trader path rounds to the instrument quantity precision afterwards;
the pre-rounding quantity is modelled. -/

/-- backtest.py `calculate_position_size`:
risk_amount = balance * risk_percentage;
stop_distance = abs(sl_percentage);
position_value = risk_amount / (stop_distance * leverage);
contract_qty = position_value / entry_price. -/
def backtestPositionSize (balance riskPct slPct leverage entryPrice : ℚ) : ℚ :=
  let riskAmount := balance * riskPct
  let stopDistance := |slPct|
  let positionValue := riskAmount / (stopDistance * leverage)
  positionValue / entryPrice

/-- trader.py `calculate_position_size`:
risk_amount = available_balance * risk_percentage;
position_value = risk_amount * leverage;
size = position_value / entry_price. -/
def traderPositionSize (availableBalance riskPct leverage entryPrice : ℚ) : ℚ :=
  let riskAmount := availableBalance * riskPct
  let positionValue := riskAmount * leverage
  positionValue / entryPrice

/-! ### RSI

`Backtester.calculate_indicators` (backtest.py lines 91-100) computes the
RSI column with pandas: delta.diff, gains and losses from the sign of the
delta, simple rolling means over `rsi_period` deltas, rs = gain / loss,
RSI = 100 - 100 / (1 + rs).  pandas float semantics at the division:
x / 0 = +inf for x > 0 (so RSI = 100), and 0 / 0 = NaN (propagated into
the RSI column).  The value of the column at the last row is modelled,
with `none` for NaN. -/

def pandasRsiLast (closes : List ℚ) (period : ℕ) : Option ℚ :=
  let deltas := List.zipWith (fun a b => a - b) closes.tail closes
  if deltas.length < period then none
  else
    let window := deltas.drop (deltas.length - period)
    let avgGain := (window.map (fun d => max d 0)).sum / period
    let avgLoss := (window.map (fun d => max (-d) 0)).sum / period
    if avgLoss = 0 then
      if avgGain = 0 then none else some 100
    else some (100 - 100 / (1 + avgGain / avgLoss))

/-- trader.py `calculate_rsi` (lines 423-451): same deltas and rolling
means over the last `period` entries, but with an explicit
`if avg_loss == 0: return 100` guard before dividing. -/
def traderRsi (closes : List ℚ) (period : ℕ) : Option ℚ :=
  if period = 0 then none
  else
    let deltas := List.zipWith (fun a b => a - b) closes.tail closes
    let gains := deltas.map (fun d => if d > 0 then d else 0)
    let losses := deltas.map (fun d => if d > 0 then 0 else |d|)
    let avgGain := (gains.drop (gains.length - period)).sum / period
    let avgLoss := (losses.drop (losses.length - period)).sum / period
    if avgLoss = 0 then some 100
    else some (100 - 100 / (1 + avgGain / avgLoss))

/-! ### Signal generation

`Backtester.generate_signals` (backtest.py lines 102-184): per bar,
long iff rsi < rsi_oversold or flow_5m < -flow_threshold_5m or
flow_1h < -flow_threshold_1h; short symmetrically, long checked first.
No moving-average trend condition appears in this path.
`TradingGUI.check_auto_trading_conditions` (gui.py lines 1234-1249):
long iff ma5 > ma20 and rsi < 20 and flow_5m < -500000 and
price > ma50, all conjunctive. -/

/-- Strategy thresholds read from the Backtester fields. -/
structure SignalParams where
  rsiOversold : ℚ
  rsiOverbought : ℚ
  flowThreshold5m : ℚ
  flowThreshold1h : ℚ
deriving DecidableEq

/-- The defaults set in Backtester.__init__ (and repeated in
trader.check_strategy_conditions). -/
def defaultSignalParams : SignalParams :=
  { rsiOversold := 40, rsiOverbought := 60
    flowThreshold5m := 100000, flowThreshold1h := 500000 }

/-- backtest.py generate_signals, decision for one bar
(1 = LONG, -1 = SHORT, 0 = no signal). -/
def backtestSignal (P : SignalParams) (rsi flow5m flow1h : ℚ) : ℤ :=
  if rsi < P.rsiOversold ∨ (flow5m < -P.flowThreshold5m ∨ flow1h < -P.flowThreshold1h)
  then 1
  else if rsi > P.rsiOverbought ∨ (flow5m > P.flowThreshold5m ∨ flow1h > P.flowThreshold1h)
  then -1
  else 0

/-- gui.py check_auto_trading_conditions, entry decision when flat. -/
def guiAutoSignal (ma5 ma20 ma50 rsi flow5m price : ℚ) : Option Side :=
  if ma5 > ma20 ∧ rsi < 20 ∧ flow5m < -500000 ∧ price > ma50 then some Side.long
  else if ma5 < ma20 ∧ rsi > 80 ∧ flow5m > 500000 ∧ price < ma50 then some Side.short
  else none

/-! ### Profit factor

`Backtester.calculate_metrics` (backtest.py lines 287-334): the loop adds
pnl to total_wins when pnl > 0 and abs(pnl) to total_losses otherwise;
profit_factor = total_wins / total_losses if total_losses > 0 else
float('inf').  The float infinity is modelled as `none`. -/

def profitFactor (pnls : List ℚ) : Option ℚ :=
  let totalWins := (pnls.filter (fun x => 0 < x)).sum
  let totalLosses := ((pnls.filter (fun x => x ≤ 0)).map (fun x => |x|)).sum
  if 0 < totalLosses then some (totalWins / totalLosses) else none

/-! ### Position lifecycle (backtest.py execute_trade, lines 204-285) -/

/-- One bar of the replayed candle series (the fields execute_trade
reads from the row). -/
structure Bar where
  timestamp : ℚ
  close : ℚ
deriving DecidableEq

/-- The risk parameters set in Backtester.__init__. -/
structure BotConfig where
  leverage : ℚ
  riskPercentage : ℚ
  tpPercentage : ℚ
  slPercentage : ℚ
  trailingStop : ℚ
deriving DecidableEq

/-- Defaults of Backtester.__init__: 25x leverage, 20% risk, 5% TP,
-5% SL, 2% trailing stop. -/
def defaultBotConfig : BotConfig :=
  { leverage := 25, riskPercentage := 20/100, tpPercentage := 5/100
    slPercentage := -5/100, trailingStop := 2/100 }

/-- The current_position dictionary of backtest.py.  highest_price is
entry_price for a long and float('inf') for a short; lowest_price is
entry_price for a short and float('-inf') for a long; the infinite
sentinels (never consulted for the owning side) are modelled as
`none`. -/
structure Position where
  side : Side
  entryPrice : ℚ
  entryTime : ℚ
  size : ℚ
  tpPrice : ℚ
  slPrice : ℚ
  highestPrice : Option ℚ
  lowestPrice : Option ℚ
deriving DecidableEq

/-- A closed trade appended to Backtester.trades. -/
structure Trade where
  entryTime : ℚ
  exitTime : ℚ
  side : Side
  entryPrice : ℚ
  exitPrice : ℚ
  size : ℚ
  pnl : ℚ
  exitReason : ExitReason
deriving DecidableEq

/-- The mutable backtester state that execute_trade touches. -/
structure BTState where
  balance : ℚ
  position : Option Position
  trades : List Trade
deriving DecidableEq

/-- Opening branch of execute_trade (signal nonzero, no position). -/
def openPosition (cfg : BotConfig) (balance : ℚ) (row : Bar) (sig : ℤ) : Position :=
  let entry := row.close
  { side := if sig = 1 then Side.long else Side.short
    entryPrice := entry
    entryTime := row.timestamp
    size := backtestPositionSize balance cfg.riskPercentage cfg.slPercentage
      cfg.leverage entry
    tpPrice := if sig = 1 then entry * (1 + cfg.tpPercentage)
      else entry * (1 - cfg.tpPercentage)
    slPrice := if sig = 1 then entry * (1 + cfg.slPercentage)
      else entry * (1 - cfg.slPercentage)
    highestPrice := if sig = 1 then some entry else none
    lowestPrice := if sig = -1 then some entry else none }

/-- highest_price = max(highest_price, price) for a long,
lowest_price = min(lowest_price, price) for a short; max and min with
the infinite sentinel return the sentinel. -/
def updateExtreme (p : Position) (price : ℚ) : Position :=
  match p.side with
  | Side.long =>
    { p with highestPrice := match p.highestPrice with
        | none => none
        | some h => some (max h price) }
  | Side.short =>
    { p with lowestPrice := match p.lowestPrice with
        | none => none
        | some l => some (min l price) }

/-- Long trailing condition: current_price <= highest_price * (1 -
trailing_stop); with the +inf sentinel the comparison holds. -/
def trailingHitLong (hp : Option ℚ) (trail price : ℚ) : Bool :=
  match hp with
  | none => true
  | some h => decide (price ≤ h * (1 - trail))

/-- Short trailing condition: current_price >= lowest_price * (1 +
trailing_stop); with the -inf sentinel the comparison holds. -/
def trailingHitShort (lp : Option ℚ) (trail price : ℚ) : Bool :=
  match lp with
  | none => true
  | some l => decide (l * (1 + trail) ≤ price)

/-- The exit if/elif chain of execute_trade: take profit, then stop
loss, then trailing stop; the first matching condition wins. -/
def checkExit (cfg : BotConfig) (p : Position) (price : ℚ) : Option ExitReason :=
  match p.side with
  | Side.long =>
    if p.tpPrice ≤ price then some ExitReason.takeProfit
    else if price ≤ p.slPrice then some ExitReason.stopLoss
    else if trailingHitLong p.highestPrice cfg.trailingStop price then
      some ExitReason.trailingStop
    else none
  | Side.short =>
    if price ≤ p.tpPrice then some ExitReason.takeProfit
    else if p.slPrice ≤ price then some ExitReason.stopLoss
    else if trailingHitShort p.lowestPrice cfg.trailingStop price then
      some ExitReason.trailingStop
    else none

/-- price_change = (current - entry) / entry for a long and
(entry - current) / entry for a short. -/
def priceChange (side : Side) (entry price : ℚ) : ℚ :=
  match side with
  | Side.long => (price - entry) / entry
  | Side.short => (entry - price) / entry

/-- Backtester.execute_trade as a transition on the backtester state:
open when the signal is nonzero and no position exists; otherwise, with
a position open, update the extreme price, compute pnl from the bar
close, and close the position when the exit chain matches. -/
def executeTrade (cfg : BotConfig) (s : BTState) (row : Bar) (sig : ℤ) : BTState :=
  if sig ≠ 0 ∧ s.position = none then
    { s with position := some (openPosition cfg s.balance row sig) }
  else
    match s.position with
    | none => s
    | some p =>
      let p2 := updateExtreme p row.close
      let pnl := p2.size * p2.entryPrice *
        priceChange p2.side p2.entryPrice row.close * cfg.leverage
      match checkExit cfg p2 row.close with
      | none => { s with position := some p2 }
      | some reason =>
        { balance := s.balance + pnl
          position := none
          trades := s.trades ++
            [{ entryTime := p2.entryTime, exitTime := row.timestamp
               side := p2.side, entryPrice := p2.entryPrice
               exitPrice := row.close, size := p2.size
               pnl := pnl, exitReason := reason }] }

/-- Control flow of trader.py execute_strategy (lines 538-604): return
without opening when a nonzero exchange position exists for the symbol
or when check_strategy_conditions yields no signal; the result is
whether an opening order is placed. -/
def traderOpensPosition (hasPosition : Bool) (sig : Option Side) : Bool :=
  if hasPosition then false
  else
    match sig with
    | none => false
    | some _ => true

/-! ### SL/TP reconciliation (trader.py get_open_positions, lines 72-109) -/

/-- expected_sl_price / expected_tp_price from entry price, intended
percentage and leverage (direction-aware sign). -/
def expectedPrice (intended entry leverage : ℚ) (dir : Side) : ℚ :=
  match dir with
  | Side.long => entry * (1 + intended / 100 / leverage)
  | Side.short => entry * (1 - intended / 100 / leverage)

/-- Reconciliation of one stored percentage against the exchange's
reported stop price (`none` when no conditional order is reported): keep
the intended percentage when the actual price is within price_tolerance
= 0.1 of the expected price, otherwise recompute it from the actual
price; Python's `if sl_price` falsiness keeps the intended value when
the reported price is exactly 0. -/
def reconcilePercent (intended entry leverage : ℚ) (dir : Side)
    (actual : Option ℚ) : ℚ :=
  match actual with
  | none => intended
  | some a =>
    if |a - expectedPrice intended entry leverage dir| ≤ 1/10 then intended
    else if a ≠ 0 then (a - entry) / entry * 100 * leverage
    else intended

/-! ### Signal dedup / cooldown (gui.py update_signal_history,
lines 1046-1062) -/

/-- prev_signal / prev_signal_time pair, both initially None. -/
structure DedupState where
  prevSignal : Option Side
  prevTime : Option ℚ
deriving DecidableEq

/-- The guard of update_signal_history: the signal differs from the
previously actioned one, or no signal was actioned yet, or at least 300
seconds have elapsed since the previously actioned signal. -/
def signalActionable (s : DedupState) (d : Side) (t : ℚ) : Bool :=
  decide (some d ≠ s.prevSignal) ||
    match s.prevTime with
    | none => true
    | some t0 => decide (300 ≤ t - t0)

/-- One evaluation of update_signal_history at time t: a NO SIGNAL value
is never actioned; an actioned signal is recorded and becomes the new
prev_signal / prev_signal_time; otherwise the state is unchanged.
Returns the new state and whether the signal was actioned. -/
def dedupStep (s : DedupState) (sig : Option Side) (t : ℚ) : DedupState × Bool :=
  match sig with
  | none => (s, false)
  | some d =>
    if signalActionable s d t then
      ({ prevSignal := some d, prevTime := some t }, true)
    else (s, false)

/-- Fold of dedupStep over a timed signal sequence, returning the per
step actioned flags. -/
def dedupRun (s : DedupState) : List (Option Side × ℚ) → List Bool
  | [] => []
  | (sig, t) :: rest =>
    let st := dedupStep s sig t
    st.2 :: dedupRun st.1 rest

/-- The initial dedup state of TradingGUI.__init__. -/
def initDedupState : DedupState := { prevSignal := none, prevTime := none }

end BnBot

namespace BnBot

lemma sum_nonpos_of_forall_nonpos (l : List ℚ) (h : ∀ x ∈ l, x ≤ 0) :
    l.sum ≤ 0 := by
  induction l with
  | nil => simp
  | cons a t ih =>
    simp only [List.sum_cons]
    exact add_nonpos (h a (List.mem_cons_self a t))
      (ih (fun x hx => h x (List.mem_cons_of_mem a hx)))

lemma filter_nonpos_abs_sum_eq (l : List ℚ) :
    ((l.filter (fun x => x ≤ 0)).map (fun x => |x|)).sum =
      |(l.filter (fun x => x ≤ 0)).sum| := by
  induction l with
  | nil => simp
  | cons a t ih =>
    by_cases ha : a ≤ 0
    · have hts : (t.filter (fun x => x ≤ 0)).sum ≤ 0 := by
        apply sum_nonpos_of_forall_nonpos
        intro x hx
        exact of_decide_eq_true (List.mem_filter.mp hx).2
      simp only [List.filter_cons, ha, decide_true_eq_true, if_true, List.map_cons,
        List.sum_cons, ih]
      rw [abs_of_nonpos ha, abs_of_nonpos hts, abs_of_nonpos (by linarith), neg_add]
    · simp [List.filter_cons, ha, ih]

lemma filter_nonpos_abs_sum_eq_zero_iff (l : List ℚ) :
    ((l.filter (fun x => x ≤ 0)).map (fun x => |x|)).sum = 0 ↔
      ∀ x ∈ l, ¬ x < 0 := by
  induction l with
  | nil => simp
  | cons a t ih =>
    by_cases ha : a ≤ 0
    · have hnn : 0 ≤ ((t.filter (fun x => x ≤ 0)).map (fun x => |x|)).sum := by
        apply List.sum_nonneg
        intro x hx
        obtain ⟨y, _, hy⟩ := List.mem_map.mp hx
        exact hy ▸ abs_nonneg y
      simp only [List.filter_cons, ha, decide_true_eq_true, if_true, List.map_cons,
        List.sum_cons, List.mem_cons]
      constructor
      · intro h
        have h1 : |a| = 0 := le_antisymm (by linarith [abs_nonneg a] ) (abs_nonneg a)
        have h2 := ih.mp (by linarith [abs_nonneg a])
        intro x hx
        rcases hx with rfl | hx
        · simp [abs_eq_zero.mp h1]
        · exact h2 x hx
      · intro h
        have h1 : a = 0 := le_antisymm ha (not_lt.mp (h a (Or.inl rfl)))
        have h2 := ih.mpr (fun x hx => h x (Or.inr hx))
        simp [h1, h2]
    · have ha' : ¬ a < 0 := fun h => ha (le_of_lt h)
      simp [List.filter_cons, ha, ih, ha']
      exact fun _ => not_lt.mp ha'

/-- C1: the stop-distance-normalized sizing formula of the backtest
satisfies quantity * entryPrice * stopDistance * leverage = riskAmount for
all valid inputs, and yields 16 on Scenario A
(balance 10000, risk 0.20, stop -0.05, leverage 25, entry 100);
the trader implementation instead returns
riskAmount * leverage / entryPrice = 500 on the same inputs. -/
theorem c1_position_sizing (b r sl lev e : ℚ)
    (hsl : sl ≠ 0) (hlev : lev ≠ 0) (he : e ≠ 0) :
    backtestPositionSize b r sl lev e * e * |sl| * lev = b * r ∧
    backtestPositionSize 10000 (20/100) (-5/100) 25 100 = 16 ∧
    traderPositionSize 10000 (20/100) 25 100 = 500 ∧
    (500 : ℚ) ≠ 16 := by
  have hsl' : |sl| ≠ 0 := abs_ne_zero.mpr hsl
  refine ⟨?_, by norm_num [backtestPositionSize, abs],
    by norm_num [traderPositionSize], by norm_num⟩
  simp only [backtestPositionSize]
  field_simp
  ring

theorem c1_position_sizing_witness :
    backtestPositionSize 10000 (20/100) (-5/100) 25 100 * 100 * |(-5/100 : ℚ)| * 25 =
      10000 * (20/100) ∧
    traderPositionSize 10000 (20/100) 25 100 = 500 := by
  have h := c1_position_sizing 10000 (20/100) (-5/100) 25 100
    (by norm_num) (by norm_num) (by norm_num)
  exact ⟨h.1, h.2.2.1⟩

/-- C6: on a constant close series (rolling average loss and gain both
zero) the backtest pandas RSI is NaN (modelled `none`) rather than the
100 the spec requires, while trader.calculate_rsi's explicit
avg_loss == 0 guard returns 100; on a strictly increasing series both
return 100. -/
theorem c6_rsi_avg_loss_zero :
    pandasRsiLast [100, 100, 100, 100, 100, 100] 5 = none ∧
    traderRsi [100, 100, 100, 100, 100, 100] 5 = some 100 ∧
    pandasRsiLast [1, 2, 3, 4, 5, 6] 5 = some 100 ∧
    traderRsi [1, 2, 3, 4, 5, 6] 5 = some 100 := by
  refine ⟨?_, ?_, ?_, ?_⟩
  · norm_num [pandasRsiLast]
  · norm_num [traderRsi]
  · norm_num [pandasRsiLast]
  · norm_num [traderRsi]

/-- C2 counterexample: with the default thresholds, a bar with RSI 30
and zero flow fires a LONG signal in the backtest generator although no
moving-average trend condition is evaluated at all, and the gui
auto-trader stays flat on a bar with a bullish trend (ma5 > ma20, price
above ma50) and an oversold RSI of 10 because its flow condition is
conjunctive, not an alternative confirmation. -/
theorem c2_trend_not_required :
    backtestSignal defaultSignalParams 30 0 0 = 1 ∧ (1 : ℤ) ≠ 0 ∧
    guiAutoSignal 10 9 8 10 0 11 = none := by
  refine ⟨?_, by norm_num, ?_⟩
  · norm_num [backtestSignal, defaultSignalParams]
  · norm_num [guiAutoSignal]

/-- C2 amended: the backtest generator emits LONG iff RSI is below the
oversold threshold or either flow reading is below its bullish
threshold, with no trend requirement and LONG taking priority over
SHORT; the gui auto-trader opens LONG only when ma5 > ma20 and RSI < 20
and flow_5m < -500000 and price > ma50 all hold (and symmetrically for
SHORT). -/
theorem c2_signal_characterization (P : SignalParams)
    (rsi flow5m flow1h ma5 ma20 ma50 price : ℚ) :
    (backtestSignal P rsi flow5m flow1h = 1 ↔
      (rsi < P.rsiOversold ∨
        (flow5m < -P.flowThreshold5m ∨ flow1h < -P.flowThreshold1h))) ∧
    (backtestSignal P rsi flow5m flow1h = -1 ↔
      (¬(rsi < P.rsiOversold ∨
          (flow5m < -P.flowThreshold5m ∨ flow1h < -P.flowThreshold1h)) ∧
        (rsi > P.rsiOverbought ∨
          (flow5m > P.flowThreshold5m ∨ flow1h > P.flowThreshold1h)))) ∧
    (guiAutoSignal ma5 ma20 ma50 rsi flow5m price = some Side.long ↔
      (ma5 > ma20 ∧ rsi < 20 ∧ flow5m < -500000 ∧ price > ma50)) ∧
    (guiAutoSignal ma5 ma20 ma50 rsi flow5m price = some Side.short ↔
      (¬(ma5 > ma20 ∧ rsi < 20 ∧ flow5m < -500000 ∧ price > ma50) ∧
        (ma5 < ma20 ∧ rsi > 80 ∧ flow5m > 500000 ∧ price < ma50))) := by
  refine ⟨?_, ?_, ?_, ?_⟩ <;>
    · simp only [backtestSignal, guiAutoSignal]
      split_ifs <;> simp_all

theorem c2_signal_characterization_witness :
    backtestSignal defaultSignalParams 50 0 600000 = -1 :=
  ((c2_signal_characterization defaultSignalParams 50 0 600000 0 0 0 0).2.1).mpr
    (by norm_num [defaultSignalParams])

/-- C7 counterexample: a trade log whose only trade has pnl 0 makes
total_losses zero, so calculate_metrics returns the infinite profit
factor (modelled `none`) although the set of trades with pnl <= 0 is
non-empty and no winning trade exists, contradicting the claimed
characterization of when the profit factor is infinite. -/
theorem c7_profit_factor_counterexample :
    profitFactor [0] = none ∧
    ¬(profitFactor [0] = none ↔
        (([0] : List ℚ).filter (fun x => x ≤ 0) = [] ∧
          ([0] : List ℚ).filter (fun x => 0 < x) ≠ [])) := by
  constructor
  · norm_num [profitFactor]
  · intro h
    have h1 : profitFactor [0] = none := by norm_num [profitFactor]
    have h2 := h.mp h1
    simp at h2

/-- C7 amended: whenever the summed absolute non-positive pnl is
nonzero, the profit factor equals the winning-pnl sum divided by the
absolute value of the non-positive-pnl sum; and it is infinite
(modelled `none`) exactly when no trade has strictly negative pnl,
regardless of whether any winning trade exists. -/
theorem c7_profit_factor (pnls : List ℚ)
    (h : ((pnls.filter (fun x => x ≤ 0)).map (fun x => |x|)).sum ≠ 0) :
    profitFactor pnls =
      some ((pnls.filter (fun x => 0 < x)).sum /
        |(pnls.filter (fun x => x ≤ 0)).sum|) ∧
    ∀ l : List ℚ, (profitFactor l = none ↔ ∀ x ∈ l, ¬ x < 0) := by
  constructor
  · have hnn : 0 ≤ ((pnls.filter (fun x => x ≤ 0)).map (fun x => |x|)).sum := by
      apply List.sum_nonneg
      intro x hx
      obtain ⟨y, _, hy⟩ := List.mem_map.mp hx
      exact hy ▸ abs_nonneg y
    have hpos : 0 < ((pnls.filter (fun x => x ≤ 0)).map (fun x => |x|)).sum :=
      lt_of_le_of_ne hnn (Ne.symm h)
    rw [filter_nonpos_abs_sum_eq] at hpos
    simp only [profitFactor, filter_nonpos_abs_sum_eq, if_pos hpos]
  · intro l
    simp only [profitFactor]
    constructor
    · intro hnone
      by_cases hl : 0 < ((l.filter (fun x => x ≤ 0)).map (fun x => |x|)).sum
      · simp [if_pos hl] at hnone
      · have hnn : 0 ≤ ((l.filter (fun x => x ≤ 0)).map (fun x => |x|)).sum := by
          apply List.sum_nonneg
          intro x hx
          obtain ⟨y, _, hy⟩ := List.mem_map.mp hx
          exact hy ▸ abs_nonneg y
        exact (filter_nonpos_abs_sum_eq_zero_iff l).mp (le_antisymm (not_lt.mp hl) hnn)
    · intro hall
      have hz := (filter_nonpos_abs_sum_eq_zero_iff l).mpr hall
      simp [hz]

theorem c7_profit_factor_witness :
    profitFactor [5, 10, -3] = some 5 ∧
    (profitFactor [5, 10] = none ↔ ∀ x ∈ ([5, 10] : List ℚ), ¬ x < 0) := by
  have h := c7_profit_factor [5, 10, -3] (by norm_num)
  constructor
  · rw [h.1]
    norm_num [abs]
  · exact h.2 [5, 10]

lemma updateExtreme_fields (p : Position) (c : ℚ) :
    (updateExtreme p c).side = p.side ∧
    (updateExtreme p c).entryPrice = p.entryPrice ∧
    (updateExtreme p c).size = p.size ∧
    (updateExtreme p c).entryTime = p.entryTime := by
  cases h : p.side <;> simp [updateExtreme, h]

/-- C3: the backtest keeps at most one position (a single Option-valued
slot): execute_trade creates a position only when the signal is nonzero
and none exists, leaves the state unchanged on a zero signal while flat,
and while a position is open only ever updates its extreme price or
closes it; trader.execute_strategy likewise places an opening order only
when the exchange reports no position and a signal fired. -/
theorem c3_single_position (cfg : BotConfig) (s : BTState) (row : Bar) (sig : ℤ) :
    (s.position = none → sig = 0 →
      (executeTrade cfg s row sig).position = none) ∧
    (∀ p, s.position = some p →
      (executeTrade cfg s row sig).position = none ∨
      (executeTrade cfg s row sig).position = some (updateExtreme p row.close)) ∧
    (∀ (hasPos : Bool) (sg : Option Side),
      traderOpensPosition hasPos sg = true → hasPos = false ∧ sg ≠ none) := by
  refine ⟨?_, ?_, ?_⟩
  · intro h0 hsig
    simp [executeTrade, h0, hsig]
  · intro p hp
    simp only [executeTrade, hp]
    cases hc : checkExit cfg (updateExtreme p row.close) row.close <;> simp [hc]
  · intro hasPos sg h
    cases hasPos <;> cases sg <;> simp_all [traderOpensPosition]

theorem c3_single_position_witness :
    (executeTrade defaultBotConfig ⟨10000, none, []⟩ ⟨0, 100⟩ 0).position = none :=
  (c3_single_position defaultBotConfig ⟨10000, none, []⟩ ⟨0, 100⟩ 0).1 rfl rfl

/-- C4: the exit chain of execute_trade checks take profit first, stop
loss second, trailing stop third; the first matching condition
determines the single recorded exit reason. -/
theorem c4_exit_priority (cfg : BotConfig) (p : Position) (price : ℚ) :
    (p.side = Side.long →
      (checkExit cfg p price = some ExitReason.takeProfit ↔ p.tpPrice ≤ price) ∧
      (checkExit cfg p price = some ExitReason.stopLoss ↔
        ¬ p.tpPrice ≤ price ∧ price ≤ p.slPrice) ∧
      (checkExit cfg p price = some ExitReason.trailingStop ↔
        ¬ p.tpPrice ≤ price ∧ ¬ price ≤ p.slPrice ∧
          trailingHitLong p.highestPrice cfg.trailingStop price = true)) ∧
    (p.side = Side.short →
      (checkExit cfg p price = some ExitReason.takeProfit ↔ price ≤ p.tpPrice) ∧
      (checkExit cfg p price = some ExitReason.stopLoss ↔
        ¬ price ≤ p.tpPrice ∧ p.slPrice ≤ price) ∧
      (checkExit cfg p price = some ExitReason.trailingStop ↔
        ¬ price ≤ p.tpPrice ∧ ¬ p.slPrice ≤ price ∧
          trailingHitShort p.lowestPrice cfg.trailingStop price = true)) := by
  constructor <;>
    · intro hs
      simp only [checkExit, hs]
      split_ifs <;> simp_all

theorem c4_exit_priority_witness :
    checkExit defaultBotConfig
      ⟨Side.long, 100, 0, 16, 85, 95, some 100, none⟩ 90 =
      some ExitReason.takeProfit :=
  (((c4_exit_priority defaultBotConfig
      ⟨Side.long, 100, 0, 16, 85, 95, some 100, none⟩ 90).1 rfl).1).mpr (by norm_num)

/-- C5: with neither take profit nor stop loss matching, the trailing
stop fires iff the price has retraced to the inclusive boundary
extremePrice * (1 - trailingStopPct) for a long (symmetrically
extremePrice * (1 + trailingStopPct) for a short). -/
theorem c5_trailing_boundary (cfg : BotConfig) (p : Position) (price e : ℚ) :
    (p.side = Side.long → p.highestPrice = some e →
      ¬ p.tpPrice ≤ price → ¬ price ≤ p.slPrice →
      (checkExit cfg p price = some ExitReason.trailingStop ↔
        price ≤ e * (1 - cfg.trailingStop))) ∧
    (p.side = Side.short → p.lowestPrice = some e →
      ¬ price ≤ p.tpPrice → ¬ p.slPrice ≤ price →
      (checkExit cfg p price = some ExitReason.trailingStop ↔
        e * (1 + cfg.trailingStop) ≤ price)) := by
  constructor <;>
    · intro hs he htp hsl
      simp [checkExit, hs, he, htp, hsl, trailingHitLong, trailingHitShort]

theorem c5_trailing_boundary_witness :
    checkExit defaultBotConfig
      ⟨Side.long, 100, 0, 16, 115, 95, some 110, none⟩ 107.8 =
      some ExitReason.trailingStop ∧
    checkExit defaultBotConfig
      ⟨Side.long, 100, 0, 16, 115, 95, some 110, none⟩ 107.81 = none := by
  constructor
  · exact ((c5_trailing_boundary defaultBotConfig
      ⟨Side.long, 100, 0, 16, 115, 95, some 110, none⟩ 107.8 110).1 rfl rfl
      (by norm_num) (by norm_num)).mpr (by norm_num [defaultBotConfig])
  · norm_num [checkExit, trailingHitLong, defaultBotConfig]

/-- C8: a repeated signal of the same direction as the previously
actioned one is actioned again iff at least 300 seconds have elapsed
since the previous actioned signal, NO SIGNAL is never actioned, and of
three qualifying LONG bars at t = 0, 60 and 400 only the first and
third are actioned. -/
theorem c8_signal_cooldown (s : DedupState) (d : Side) (t t0 : ℚ)
    (hsig : s.prevSignal = some d) (htime : s.prevTime = some t0) :
    ((dedupStep s (some d) t).2 = true ↔ 300 ≤ t - t0) ∧
    (∀ (s2 : DedupState) (t2 : ℚ), (dedupStep s2 none t2).2 = false) ∧
    dedupRun initDedupState
      [(some Side.long, 0), (some Side.long, 60), (some Side.long, 400)] =
      [true, false, true] := by
  refine ⟨?_, fun s2 t2 => rfl, ?_⟩
  · simp only [dedupStep, signalActionable, hsig, htime]
    split_ifs with h <;> simp_all
  · norm_num [dedupRun, dedupStep, signalActionable, initDedupState]

theorem c8_signal_cooldown_witness :
    (dedupStep ⟨some Side.long, some 0⟩ (some Side.long) 400).2 = true ∧
    (dedupStep ⟨some Side.long, some 0⟩ (some Side.long) 60).2 = false := by
  constructor
  · exact (c8_signal_cooldown ⟨some Side.long, some 0⟩ Side.long 400 0
      rfl rfl).1.mpr (by norm_num)
  · have h := (c8_signal_cooldown ⟨some Side.long, some 0⟩ Side.long 60 0
      rfl rfl).1
    simp only [show ¬ (300 : ℚ) ≤ 60 - 0 from by norm_num, iff_false] at h
    exact Bool.not_eq_true _ ▸ h

/-- C9: reconciliation keeps the stored intended percentage when the
exchange's reported stop price is within the 0.1 price tolerance of the
expected price, and otherwise overwrites it with the percentage
recomputed from the reported price. -/
theorem c9_reconciliation (intended entry leverage a : ℚ) (dir : Side)
    (ha : 0 < a) :
    (|a - expectedPrice intended entry leverage dir| ≤ 1/10 →
      reconcilePercent intended entry leverage dir (some a) = intended) ∧
    (¬ |a - expectedPrice intended entry leverage dir| ≤ 1/10 →
      reconcilePercent intended entry leverage dir (some a) =
        (a - entry) / entry * 100 * leverage) := by
  have ha' : a ≠ 0 := ne_of_gt ha
  constructor
  · intro h
    simp only [reconcilePercent]
    rw [if_pos h]
  · intro h
    simp only [reconcilePercent]
    rw [if_neg h, if_pos ha']

theorem c9_reconciliation_witness :
    reconcilePercent (-2) 100 1 Side.long (some 98.05) = -2 ∧
    reconcilePercent (-2) 100 1 Side.long (some 90) = -10 := by
  constructor
  · exact (c9_reconciliation (-2) 100 1 98.05 Side.long (by norm_num)).1
      (by norm_num [expectedPrice, abs])
  · have h := (c9_reconciliation (-2) 100 1 90 Side.long (by norm_num)).2
      (by norm_num [expectedPrice, abs])
    rw [h]
    norm_num

/-- C10: execute_trade emits no trade on the bar that opens a position,
and every emitted trade records the close of the bar on which the exit
was detected as its exit price, that bar's timestamp as its exit time,
and a pnl computed from that bar close. -/
theorem c10_exit_at_bar_close (cfg : BotConfig) (s : BTState) (row : Bar)
    (sig : ℤ) :
    (s.position = none → (executeTrade cfg s row sig).trades = s.trades) ∧
    (∀ p, s.position = some p → ∀ tr,
      (executeTrade cfg s row sig).trades = s.trades ++ [tr] →
        tr.exitPrice = row.close ∧ tr.exitTime = row.timestamp ∧
        tr.pnl = p.size * p.entryPrice *
          priceChange p.side p.entryPrice row.close * cfg.leverage) := by
  constructor
  · intro h0
    simp only [executeTrade, h0]
    split_ifs <;> simp
  · intro p hp tr htr
    have hf := updateExtreme_fields p row.close
    simp only [executeTrade, hp] at htr
    rw [if_neg (by simp)] at htr
    cases hc : checkExit cfg (updateExtreme p row.close) row.close with
    | none =>
      rw [hc] at htr
      simp at htr
    | some reason =>
      rw [hc] at htr
      have h2 := List.append_cancel_left htr
      simp only [List.cons.injEq, and_true] at h2
      rw [← h2]
      exact ⟨rfl, rfl, by simp [hf.1, hf.2.1, hf.2.2.1]⟩

theorem c10_exit_at_bar_close_witness :
    (executeTrade defaultBotConfig ⟨10000, none, []⟩ ⟨0, 100⟩ 1).trades = [] :=
  (c10_exit_at_bar_close defaultBotConfig ⟨10000, none, []⟩ ⟨0, 100⟩ 1).1 rfl

end BnBot
